import Mathlib

/-!
Verification of the entitlement and permit logic of `backend/server.py`
(employee leave-permit system).

The Python source is embedded shallowly:

* enumerations (`UserRole`, `ContractType`, `PermitType`, `PermitStatus`)
  become inductive types;
* the pydantic models `User`, `Permit`, `DaysAvailable`, `PermitReview`
  become structures, with `datetime` values modelled at day granularity as
  integers (the source only ever uses `.days` of a datetime difference);
* `calculate_days_available` reads the wall clock via
  `datetime.now(timezone.utc)`; the embedding makes that input explicit as a
  `now : Int` parameter (days).  Python float arithmetic on
  `days / 365.25` is modelled exactly in `ℚ`; since `d / 365.25 = 4*d/1461`
  can never equal the thresholds `5` and `6` exactly, the double-precision
  rounding error (relative `2 ^ (-52)`) cannot flip any comparison the code
  performs for any realistic day count, so the rational model is faithful;
* the Python `int()` cast truncates toward zero and is modelled by `pyInt`;
* the balance check of the `create_permit` route (`server.py` lines 291-298)
  is extracted as `validate_request`, returning `Except InsufficientBalance
  Unit` in place of `raise HTTPException(400, ...)`;
* the record construction of `create_permit` (`server.py` lines 300-304) is
  extracted as `create_permit_record`, and the record mutation performed by
  the `review_permit` route (`server.py` lines 351-366) as the pure state
  transformer `review_permit`.
-/

namespace Permisos

/-- Embedding of the `UserRole` enum of `server.py` (lines 31-33). -/
inductive UserRole where
  | admin
  | teacher
deriving DecidableEq, Repr

/-- Embedding of the `ContractType` enum of `server.py` (lines 35-38). -/
inductive ContractType where
  | full_time
  | part_time
  | hourly
deriving DecidableEq, Repr

/-- Embedding of the `PermitType` enum of `server.py` (lines 40-42):
vacation and economic days. -/
inductive PermitType where
  | vacation_57
  | economic_62
deriving DecidableEq, Repr

/-- Embedding of the `PermitStatus` enum of `server.py` (lines 44-47). -/
inductive PermitStatus where
  | pending
  | approved
  | rejected
deriving DecidableEq, Repr

/-- Embedding of the `User` pydantic model (`server.py` lines 49-57);
datetimes are modelled as integer day numbers.  `hire_date` and
`contract_type` are optional exactly as in the source. -/
structure User where
  id : String
  email : String
  name : String
  role : UserRole
  contract_type : Option ContractType
  hire_date : Option Int
  created_at : Int
deriving DecidableEq, Repr

/-- Embedding of the `Permit` pydantic model (`server.py` lines 71-85). -/
structure Permit where
  id : String
  teacher_id : String
  teacher_name : String
  permit_type : PermitType
  start_date : Int
  end_date : Int
  days_requested : Int
  reason : String
  status : PermitStatus
  created_at : Int
  reviewed_at : Option Int
  reviewed_by : Option String
  rejection_reason : Option String
deriving DecidableEq, Repr

/-- Embedding of the `PermitCreate` request body (`server.py` lines 87-92). -/
structure PermitCreate where
  permit_type : PermitType
  start_date : Int
  end_date : Int
  days_requested : Int
  reason : String
deriving DecidableEq, Repr

/-- Embedding of the `PermitReview` request body (`server.py` lines 94-96). -/
structure PermitReview where
  status : PermitStatus
  rejection_reason : Option String
deriving DecidableEq, Repr

/-- Embedding of the `DaysAvailable` response model (`server.py` lines
107-113): the entitlement snapshot with six integer fields. -/
structure DaysAvailable where
  vacation_period_1 : Int
  vacation_period_2 : Int
  vacation_additional : Int
  economic_days : Int
  total_vacation : Int
  total_economic : Int
deriving DecidableEq, Repr

/-- Python `int()` applied to a float: truncation toward zero, modelled on
exact rationals. -/
def pyInt (q : ℚ) : Int := if 0 ≤ q then ⌊q⌋ else -⌊-q⌋

/-- Embedding of `years_of_service = (datetime.now(timezone.utc) -
user.hire_date).days / 365.25` (`server.py` line 150), with the clock made an
explicit parameter. -/
def years_of_service (hire now : Int) : ℚ := ((now - hire : Int) : ℚ) / 365.25

/-- The additional-vacation accrual branch of `calculate_days_available`
(`server.py` lines 154-165), including the dead intermediate cap of 15 and
the duplicated full-time/part-time cap of 8. -/
def vacation_additional_calc (ct : ContractType) (yos : ℚ) : Int :=
  if ct = ContractType.full_time ∨ ct = ContractType.part_time then
    if yos ≥ 6 then
      let years_after_five := pyInt (yos - 5)
      let va := min (5 + years_after_five) 15
      if ct = ContractType.full_time then min va 8 else min va 8
    else if yos > 5 then 5
    else 0
  else 0

/-- Embedding of `approved_permits = [p for p in permits if p.status ==
PermitStatus.APPROVED]` (`server.py` line 171). -/
def approved_permits (permits : List Permit) : List Permit :=
  permits.filter (fun p => p.status = PermitStatus.approved)

/-- Embedding of `vacation_used` (`server.py` line 172): total approved
vacation days. -/
def vacation_used (permits : List Permit) : Int :=
  (((approved_permits permits).filter
      (fun p => p.permit_type = PermitType.vacation_57)).map
    (fun p => p.days_requested)).sum

/-- Embedding of `economic_used` (`server.py` line 173): total approved
economic days. -/
def economic_used (permits : List Permit) : Int :=
  (((approved_permits permits).filter
      (fun p => p.permit_type = PermitType.economic_62)).map
    (fun p => p.days_requested)).sum

/-- The all-zero snapshot returned for a missing profile
(`server.py` lines 145-148). -/
def zeroSnapshot : DaysAvailable :=
  { vacation_period_1 := 0, vacation_period_2 := 0, vacation_additional := 0
    economic_days := 0, total_vacation := 0, total_economic := 0 }

/-- Embedding of `calculate_days_available` (`server.py` lines 143-185).
The wall clock read on line 150 is the explicit `now` parameter (in days, so
that `now - hire` is the `.days` of the Python datetime difference). -/
def calculate_days_available (user : User) (permits : List Permit)
    (now : Int) : DaysAvailable :=
  match user.hire_date, user.contract_type with
  | some hire, some ct =>
    let yos := years_of_service hire now
    let vacation_period_1 : Int := 10
    let vacation_period_2 : Int := 10
    let vacation_additional := vacation_additional_calc ct yos
    let economic_base : Int := 8
    let economic_additional := pyInt (yos / 10)
    let economic_days := economic_base + economic_additional
    let vu := vacation_used permits
    let eu := economic_used permits
    let total_vacation_available :=
      vacation_period_1 + vacation_period_2 + vacation_additional
    let total_economic_available := economic_days
    { vacation_period_1 := max 0 (vacation_period_1 - min vu vacation_period_1)
      vacation_period_2 := max 0 (vacation_period_2 - max 0 (vu - vacation_period_1))
      vacation_additional := max 0 (vacation_additional -
        max 0 (vu - (vacation_period_1 + vacation_period_2)))
      economic_days := max 0 (total_economic_available - eu)
      total_vacation := max 0 (total_vacation_available - vu)
      total_economic := max 0 (total_economic_available - eu) }
  | _, _ => zeroSnapshot

/-- The single domain error: insufficient balance, carrying the requested and
the available amount (spec section 7; `server.py` lines 295 and 298 embed both
in the HTTP 400 message). -/
structure InsufficientBalance where
  requested : Int
  available : Int
deriving DecidableEq, Repr

/-- The balance check of the `create_permit` route (`server.py` lines
291-298): recompute the snapshot from the permit history and reject when the
requested day count exceeds the relevant total. -/
def validate_request (user : User) (permits : List Permit)
    (permit_type : PermitType) (days_requested : Int) (now : Int) :
    Except InsufficientBalance Unit :=
  let days_available := calculate_days_available user permits now
  if permit_type = PermitType.vacation_57 then
    if days_requested > days_available.total_vacation then
      Except.error ⟨days_requested, days_available.total_vacation⟩
    else Except.ok ()
  else
    if days_requested > days_available.total_economic then
      Except.error ⟨days_requested, days_available.total_economic⟩
    else Except.ok ()

/-- The permit record built by the `create_permit` route (`server.py` lines
300-304): the `status` field is not passed, so the pydantic default
`PermitStatus.PENDING` (line 81) applies; review metadata starts empty
(lines 83-85). -/
def create_permit_record (teacher_id teacher_name : String)
    (pc : PermitCreate) (now : Int) (pid : String) : Permit :=
  { id := pid, teacher_id := teacher_id, teacher_name := teacher_name,
    permit_type := pc.permit_type, start_date := pc.start_date,
    end_date := pc.end_date, days_requested := pc.days_requested,
    reason := pc.reason, status := PermitStatus.pending, created_at := now,
    reviewed_at := none, reviewed_by := none, rejection_reason := none }

/-- The permit mutation performed by the `review_permit` route (`server.py`
lines 351-366): the stored record is updated with the requested status, the
review timestamp and the reviewer name, plus the rejection reason when the
request body carries a non-empty one (Python truthiness of
`review.rejection_reason`).  Note: the route performs no check of the current
status of the permit. -/
def review_permit (permit : Permit) (review : PermitReview)
    (reviewer : String) (now : Int) : Permit :=
  { permit with
    status := review.status
    reviewed_at := some now
    reviewed_by := some reviewer
    rejection_reason :=
      match review.rejection_reason with
      | some r => if r = "" then permit.rejection_reason else some r
      | none => permit.rejection_reason }

/-! Helper lemmas. -/

/-- On a non-negative rational, the Python `int()` cast is the floor. -/
lemma pyInt_of_nonneg {q : ℚ} (h : 0 ≤ q) : pyInt q = ⌊q⌋ := by
  simp [pyInt, h]

/-- The additional-vacation accrual is never negative. -/
lemma vacation_additional_calc_nonneg (ct : ContractType) (yos : ℚ) :
    0 ≤ vacation_additional_calc ct yos := by
  unfold vacation_additional_calc
  split_ifs with h1 h2 h3 h4
  · have h5 : (0:ℚ) ≤ yos - 5 := by linarith
    have h6 : (0:Int) ≤ ⌊yos - 5⌋ := Int.floor_nonneg.mpr h5
    rw [pyInt_of_nonneg h5]
    simp only [min_def]
    split_ifs <;> omega
  · have h5 : (0:ℚ) ≤ yos - 5 := by linarith
    have h6 : (0:Int) ≤ ⌊yos - 5⌋ := Int.floor_nonneg.mpr h5
    rw [pyInt_of_nonneg h5]
    simp only [min_def]
    split_ifs <;> omega
  · norm_num
  · norm_num
  · norm_num

/-- Closed form of the accrual branch for full-time and part-time contracts:
the body of `server.py` lines 157-165 equals the three-case formula of the
spec (0 up to five years, 5 strictly between five and six, capped
`5 + extraYears` from six on). -/
lemma vacation_additional_calc_spec (hire now : Int) (ct : ContractType)
    (hct : ct = ContractType.full_time ∨ ct = ContractType.part_time) :
    vacation_additional_calc ct (years_of_service hire now) =
      if years_of_service hire now ≤ 5 then 0
      else if years_of_service hire now < 6 then 5
      else min (5 + ⌊years_of_service hire now - 5⌋) 8 := by
  unfold vacation_additional_calc
  rw [if_pos hct]
  set yos := years_of_service hire now with hy
  rcases le_or_lt (6 : ℚ) yos with h6 | h6
  · have h5 : (0:ℚ) ≤ yos - 5 := by linarith
    rw [if_pos h6, if_neg (by linarith : ¬ yos ≤ 5), if_neg (by linarith : ¬ yos < 6)]
    simp only [pyInt_of_nonneg h5]
    split_ifs <;> rw [min_assoc] <;> norm_num
  · rw [if_neg (not_le.mpr h6)]
    rcases le_or_lt yos 5 with h5 | h5
    · rw [if_neg (not_lt.mpr h5), if_pos h5]
    · rw [if_pos h5, if_neg (not_le.mpr h5), if_pos h6]

/-- Unfolding of `calculate_days_available` on a complete profile: the six
fields written out as in `server.py` lines 178-185. -/
lemma calc_fields (u : User) (ps : List Permit) (now hire : Int)
    (ct : ContractType)
    (hh : u.hire_date = some hire) (hc : u.contract_type = some ct) :
    calculate_days_available u ps now =
      { vacation_period_1 := max 0 (10 - min (vacation_used ps) 10)
        vacation_period_2 := max 0 (10 - max 0 (vacation_used ps - 10))
        vacation_additional := max 0 (vacation_additional_calc ct
          (years_of_service hire now) - max 0 (vacation_used ps - (10 + 10)))
        economic_days := max 0 ((8 + pyInt (years_of_service hire now / 10)) -
          economic_used ps)
        total_vacation := max 0 ((10 + 10 + vacation_additional_calc ct
          (years_of_service hire now)) - vacation_used ps)
        total_economic := max 0 ((8 + pyInt (years_of_service hire now / 10)) -
          economic_used ps) } := by
  unfold calculate_days_available
  rw [hh, hc]

/-- The snapshot depends on the permit list only through the two sums of
approved days. -/
lemma calc_used_congr (u : User) (ps ps' : List Permit) (now : Int)
    (hv : vacation_used ps = vacation_used ps')
    (he : economic_used ps = economic_used ps') :
    calculate_days_available u ps now = calculate_days_available u ps' now := by
  unfold calculate_days_available
  cases u.hire_date <;> cases u.contract_type <;> simp [hv, he]

/-- A profile missing either field yields the all-zero snapshot. -/
lemma calc_missing_profile (u : User) (ps : List Permit) (now : Int)
    (h : u.hire_date = none ∨ u.contract_type = none) :
    calculate_days_available u ps now = zeroSnapshot := by
  unfold calculate_days_available
  rcases h with h | h
  · rw [h]
  · rw [h]
    cases u.hire_date <;> rfl

/-! Concrete fixtures used by the witnesses. -/

/-- A full-time teacher hired on day 0. -/
def userFT : User :=
  { id := "t1", email := "t1@school.mx", name := "Teacher One",
    role := UserRole.teacher, contract_type := some ContractType.full_time,
    hire_date := some 0, created_at := 0 }

/-- An hourly teacher hired on day 0. -/
def userHourly : User :=
  { id := "t2", email := "t2@school.mx", name := "Teacher Two",
    role := UserRole.teacher, contract_type := some ContractType.hourly,
    hire_date := some 0, created_at := 0 }

/-- An admin account with no hire date and no contract type. -/
def userAdmin : User :=
  { id := "a1", email := "a1@school.mx", name := "Admin One",
    role := UserRole.admin, contract_type := none,
    hire_date := none, created_at := 0 }

/-- A vacation permit of `d` days in status `st`. -/
def permitVac (d : Int) (st : PermitStatus) : Permit :=
  { id := "p1", teacher_id := "t1", teacher_name := "Teacher One",
    permit_type := PermitType.vacation_57, start_date := 100, end_date := 105,
    days_requested := d, reason := "family", status := st, created_at := 90,
    reviewed_at := none, reviewed_by := none, rejection_reason := none }

/-- A vacation permit already settled as approved, with review metadata. -/
def approvedPermit : Permit :=
  { id := "p9", teacher_id := "t1", teacher_name := "Teacher One",
    permit_type := PermitType.vacation_57, start_date := 200, end_date := 204,
    days_requested := 5, reason := "trip", status := PermitStatus.approved,
    created_at := 180, reviewed_at := some 181, reviewed_by := some "Admin A",
    rejection_reason := none }

/-- A review request asking for rejection. -/
def rejectReview : PermitReview :=
  { status := PermitStatus.rejected, rejection_reason := some "overlap" }

/-- A permit-creation request body. -/
def pcExample : PermitCreate :=
  { permit_type := PermitType.vacation_57, start_date := 100, end_date := 105,
    days_requested := 5, reason := "family" }

/-- The name of a second administrator. -/
def reviewerB : String := "Admin B"

/-! Claim theorems. -/

/-- C1: for every employee with a hire date and a full-time or part-time
contract the additional vacation accrual is 0 when the years of service are
at most 5, is 5 when they are strictly between 5 and 6, and is
`min (5 + ⌊yos - 5⌋) 8` when they are at least 6; for an hourly contract the
accrual is 0; and the snapshot field `vacation_additional` equals this
accrual whenever at most 20 approved vacation days are consumed (beyond 20
the allocation of C2 starts eating into the bucket). -/
theorem additional_accrual_spec (u : User) (ps : List Permit)
    (now hire : Int) (ct : ContractType)
    (hh : u.hire_date = some hire) (hc : u.contract_type = some ct) :
    ((ct = ContractType.full_time ∨ ct = ContractType.part_time) →
      vacation_additional_calc ct (years_of_service hire now) =
        if years_of_service hire now ≤ 5 then 0
        else if years_of_service hire now < 6 then 5
        else min (5 + ⌊years_of_service hire now - 5⌋) 8) ∧
    (ct = ContractType.hourly →
      vacation_additional_calc ct (years_of_service hire now) = 0) ∧
    (vacation_used ps ≤ 20 →
      (calculate_days_available u ps now).vacation_additional =
        vacation_additional_calc ct (years_of_service hire now)) := by
  refine ⟨vacation_additional_calc_spec hire now ct, ?_, ?_⟩
  · intro h
    subst h
    simp [vacation_additional_calc]
  · intro hu
    rw [calc_fields u ps now hire ct hh hc]
    have hA := vacation_additional_calc_nonneg ct (years_of_service hire now)
    simp only [max_def]
    split_ifs <;> omega

/-- C1 witness: a full-time employee at 2192 days (just past six years) and
an hourly employee, evaluated concretely. -/
theorem additional_accrual_spec_witness :
    vacation_additional_calc ContractType.full_time (years_of_service 0 2192) =
      (if years_of_service 0 2192 ≤ 5 then 0
       else if years_of_service 0 2192 < 6 then 5
       else min (5 + ⌊years_of_service 0 2192 - 5⌋) 8) ∧
    vacation_additional_calc ContractType.hourly (years_of_service 0 2192) = 0 ∧
    (calculate_days_available userFT [] 2192).vacation_additional =
      vacation_additional_calc ContractType.full_time (years_of_service 0 2192) := by
  have h := additional_accrual_spec userFT [] 2192 0 ContractType.full_time rfl rfl
  have h2 := additional_accrual_spec userHourly [] 2192 0 ContractType.hourly rfl rfl
  exact ⟨h.1 (Or.inl rfl), h2.2.1 rfl, h.2.2 (by decide)⟩

/-- C2: for a complete profile and a non-negative approved vacation total,
the snapshot allocates the used days against period 1 (cap 10), period 2
(cap 10) and the additional bucket (cap = computed accrual) in that order:
each remaining value is `max 0 (cap - max 0 (used - earlier caps))`, and the
vacation total is `max 0 ((10 + 10 + additional) - used)`. -/
theorem vacation_allocation_spec (u : User) (ps : List Permit)
    (now hire : Int) (ct : ContractType)
    (hh : u.hire_date = some hire) (hc : u.contract_type = some ct)
    (hv : 0 ≤ vacation_used ps) :
    (calculate_days_available u ps now).vacation_period_1 =
      max 0 (10 - max 0 (vacation_used ps - 0)) ∧
    (calculate_days_available u ps now).vacation_period_2 =
      max 0 (10 - max 0 (vacation_used ps - 10)) ∧
    (calculate_days_available u ps now).vacation_additional =
      max 0 (vacation_additional_calc ct (years_of_service hire now) -
        max 0 (vacation_used ps - (10 + 10))) ∧
    (calculate_days_available u ps now).total_vacation =
      max 0 ((10 + 10 + vacation_additional_calc ct (years_of_service hire now)) -
        vacation_used ps) := by
  rw [calc_fields u ps now hire ct hh hc]
  refine ⟨?_, rfl, rfl, rfl⟩
  simp only [max_def, min_def]
  split_ifs <;> omega

/-- C2 witness: the worked example of the spec — additional = 5 and
15 approved vacation days leave period 1 = 0, period 2 = 5, additional = 5
(and a vacation total of 10). -/
theorem vacation_allocation_spec_witness :
    (calculate_days_available userFT [permitVac 15 PermitStatus.approved] 2000).vacation_period_1 = 0 ∧
    (calculate_days_available userFT [permitVac 15 PermitStatus.approved] 2000).vacation_period_2 = 5 ∧
    (calculate_days_available userFT [permitVac 15 PermitStatus.approved] 2000).vacation_additional = 5 ∧
    (calculate_days_available userFT [permitVac 15 PermitStatus.approved] 2000).total_vacation = 10 := by
  have h := vacation_allocation_spec userFT [permitVac 15 PermitStatus.approved]
    2000 0 ContractType.full_time rfl rfl (by decide)
  have hv : vacation_used [permitVac 15 PermitStatus.approved] = 15 := by decide
  have hA : vacation_additional_calc ContractType.full_time (years_of_service 0 2000) = 5 := by
    simp [vacation_additional_calc, years_of_service]
    norm_num
  obtain ⟨h1, h2, h3, h4⟩ := h
  rw [hv] at h1 h2 h3 h4
  rw [hA] at h3 h4
  refine ⟨?_, ?_, ?_, ?_⟩ <;> first
    | (rw [h1]; simp [max_def])
    | (rw [h2]; simp [max_def])
    | (rw [h3]; simp [max_def])
    | (rw [h4]; simp [max_def])

/-- C3: for every employee with a hire date (not in the future, so that the
Python truncation agrees with the floor of the spec) and a contract type of
any kind, and a non-negative approved economic total, the remaining economic
days are `max 0 ((8 + ⌊yos / 10⌋) - economicUsed)`, and the `total_economic`
field always equals the `economic_days` field. -/
theorem economic_days_spec (u : User) (ps : List Permit)
    (now hire : Int) (ct : ContractType)
    (hh : u.hire_date = some hire) (hc : u.contract_type = some ct)
    (hnow : hire ≤ now) (he : 0 ≤ economic_used ps) :
    (calculate_days_available u ps now).economic_days =
      max 0 ((8 + ⌊years_of_service hire now / 10⌋) - economic_used ps) ∧
    (calculate_days_available u ps now).total_economic =
      (calculate_days_available u ps now).economic_days := by
  rw [calc_fields u ps now hire ct hh hc]
  have hy : (0:ℚ) ≤ years_of_service hire now / 10 := by
    unfold years_of_service
    have : (0:ℚ) ≤ ((now - hire : Int) : ℚ) := by
      exact_mod_cast sub_nonneg.mpr hnow
    positivity
  rw [pyInt_of_nonneg hy]
  exact ⟨rfl, rfl⟩

/-- C3 witness: an hourly employee at 23 years of service has 10 economic
days, matching the spec example `8 + floor(23 / 10)`. -/
theorem economic_days_spec_witness :
    (calculate_days_available userHourly [] 8401).economic_days = 10 ∧
    (calculate_days_available userHourly [] 8401).total_economic =
      (calculate_days_available userHourly [] 8401).economic_days := by
  have h := economic_days_spec userHourly [] 8401 0 ContractType.hourly rfl rfl
    (by decide) (by decide)
  refine ⟨?_, h.2⟩
  rw [h.1]
  have he0 : economic_used ([] : List Permit) = 0 := rfl
  rw [he0]
  have hf : (⌊years_of_service 0 8401 / 10⌋ : Int) = 2 := by
    unfold years_of_service
    norm_num
  rw [hf]
  simp [max_def]

/-- C4: the balance check of permit creation fails with `InsufficientBalance`
(carrying the requested and the available amounts) exactly when the requested
day count strictly exceeds the total of the requested kind, and succeeds
otherwise. -/
theorem validate_request_balance_check (u : User) (ps : List Permit)
    (pt : PermitType) (d now : Int) :
    (d > (if pt = PermitType.vacation_57
            then (calculate_days_available u ps now).total_vacation
            else (calculate_days_available u ps now).total_economic) ∧
      validate_request u ps pt d now =
        Except.error ⟨d, if pt = PermitType.vacation_57
            then (calculate_days_available u ps now).total_vacation
            else (calculate_days_available u ps now).total_economic⟩) ∨
    (d ≤ (if pt = PermitType.vacation_57
            then (calculate_days_available u ps now).total_vacation
            else (calculate_days_available u ps now).total_economic) ∧
      validate_request u ps pt d now = Except.ok ()) := by
  by_cases hpt : pt = PermitType.vacation_57
  · rw [if_pos hpt]
    by_cases hd : d > (calculate_days_available u ps now).total_vacation
    · refine Or.inl ⟨hd, ?_⟩
      simp only [validate_request]
      rw [if_pos hpt, if_pos hd]
    · refine Or.inr ⟨not_lt.mp hd, ?_⟩
      simp only [validate_request]
      rw [if_pos hpt, if_neg hd]
  · rw [if_neg hpt]
    by_cases hd : d > (calculate_days_available u ps now).total_economic
    · refine Or.inl ⟨hd, ?_⟩
      simp only [validate_request]
      rw [if_neg hpt, if_pos hd]
    · refine Or.inr ⟨not_lt.mp hd, ?_⟩
      simp only [validate_request]
      rw [if_neg hpt, if_neg hd]

/-- C4 witness: with a vacation total of 12, requesting 12 days succeeds and
requesting 13 fails with `InsufficientBalance 13 12`. -/
theorem validate_request_balance_check_witness :
    validate_request userFT [permitVac 8 PermitStatus.approved]
      PermitType.vacation_57 12 100 = Except.ok () ∧
    validate_request userFT [permitVac 8 PermitStatus.approved]
      PermitType.vacation_57 13 100 = Except.error ⟨13, 12⟩ := by
  have htv : (calculate_days_available userFT
      [permitVac 8 PermitStatus.approved] 100).total_vacation = 12 := by
    unfold calculate_days_available userFT
    simp [vacation_additional_calc, years_of_service, pyInt, vacation_used,
      economic_used, approved_permits, permitVac]
    norm_num
  constructor
  · rcases validate_request_balance_check userFT [permitVac 8 PermitStatus.approved]
      PermitType.vacation_57 12 100 with ⟨hgt, _⟩ | ⟨_, hok⟩
    · rw [if_pos rfl, htv] at hgt
      omega
    · exact hok
  · rcases validate_request_balance_check userFT [permitVac 8 PermitStatus.approved]
      PermitType.vacation_57 13 100 with ⟨_, herr⟩ | ⟨hle, _⟩
    · rw [if_pos rfl, htv] at herr
      exact herr
    · rw [if_pos rfl, htv] at hle
      omega

/-- C5: inserting (equivalently, removing) a permit whose status is not
approved anywhere in the history changes neither the snapshot nor any
validation verdict computed from it. -/
theorem non_approved_permits_ignored (u : User) (ps₁ ps₂ : List Permit)
    (p : Permit) (now : Int)
    (hp : p.status ≠ PermitStatus.approved) :
    calculate_days_available u (ps₁ ++ p :: ps₂) now =
      calculate_days_available u (ps₁ ++ ps₂) now ∧
    ∀ pt d, validate_request u (ps₁ ++ p :: ps₂) pt d now =
      validate_request u (ps₁ ++ ps₂) pt d now := by
  have hv : vacation_used (ps₁ ++ p :: ps₂) = vacation_used (ps₁ ++ ps₂) := by
    simp [vacation_used, approved_permits, List.filter_append, List.filter_cons, hp]
  have he : economic_used (ps₁ ++ p :: ps₂) = economic_used (ps₁ ++ ps₂) := by
    simp [economic_used, approved_permits, List.filter_append, List.filter_cons, hp]
  have hcalc := calc_used_congr u _ _ now hv he
  refine ⟨hcalc, fun pt d => ?_⟩
  unfold validate_request
  rw [hcalc]

/-- C5 witness: a pending 4-day vacation permit appended after an approved
8-day one changes neither the snapshot nor a concrete validation verdict. -/
theorem non_approved_permits_ignored_witness :
    calculate_days_available userFT
      ([permitVac 8 PermitStatus.approved] ++ permitVac 4 PermitStatus.pending :: []) 100 =
      calculate_days_available userFT ([permitVac 8 PermitStatus.approved] ++ []) 100 ∧
    validate_request userFT
      ([permitVac 8 PermitStatus.approved] ++ permitVac 4 PermitStatus.pending :: [])
      PermitType.vacation_57 12 100 =
      validate_request userFT ([permitVac 8 PermitStatus.approved] ++ [])
        PermitType.vacation_57 12 100 := by
  have h := non_approved_permits_ignored userFT [permitVac 8 PermitStatus.approved] []
    (permitVac 4 PermitStatus.pending) 100 (by decide)
  exact ⟨h.1, h.2 PermitType.vacation_57 12⟩

/-- C6: with all requested day counts non-negative, every one of the six
snapshot fields is non-negative (every field of the source is either a
constant 0 or wrapped in `max(0, ...)`). -/
theorem snapshot_fields_nonneg (u : User) (ps : List Permit) (now : Int)
    (h : ∀ p ∈ ps, 0 ≤ p.days_requested) :
    0 ≤ (calculate_days_available u ps now).vacation_period_1 ∧
    0 ≤ (calculate_days_available u ps now).vacation_period_2 ∧
    0 ≤ (calculate_days_available u ps now).vacation_additional ∧
    0 ≤ (calculate_days_available u ps now).economic_days ∧
    0 ≤ (calculate_days_available u ps now).total_vacation ∧
    0 ≤ (calculate_days_available u ps now).total_economic := by
  rcases hh : u.hire_date with _ | hire
  · rw [calc_missing_profile u ps now (Or.inl hh)]
    exact ⟨le_refl 0, le_refl 0, le_refl 0, le_refl 0, le_refl 0, le_refl 0⟩
  · rcases hc : u.contract_type with _ | ct
    · rw [calc_missing_profile u ps now (Or.inr hc)]
      exact ⟨le_refl 0, le_refl 0, le_refl 0, le_refl 0, le_refl 0, le_refl 0⟩
    · rw [calc_fields u ps now hire ct hh hc]
      exact ⟨le_max_left 0 _, le_max_left 0 _, le_max_left 0 _,
        le_max_left 0 _, le_max_left 0 _, le_max_left 0 _⟩

/-- C6 witness: a snapshot where the used days exceed period 1 still has
every field non-negative. -/
theorem snapshot_fields_nonneg_witness :
    0 ≤ (calculate_days_available userFT [permitVac 15 PermitStatus.approved] 2000).vacation_period_1 ∧
    0 ≤ (calculate_days_available userFT [permitVac 15 PermitStatus.approved] 2000).vacation_period_2 ∧
    0 ≤ (calculate_days_available userFT [permitVac 15 PermitStatus.approved] 2000).vacation_additional ∧
    0 ≤ (calculate_days_available userFT [permitVac 15 PermitStatus.approved] 2000).economic_days ∧
    0 ≤ (calculate_days_available userFT [permitVac 15 PermitStatus.approved] 2000).total_vacation ∧
    0 ≤ (calculate_days_available userFT [permitVac 15 PermitStatus.approved] 2000).total_economic :=
  snapshot_fields_nonneg userFT [permitVac 15 PermitStatus.approved] 2000 (by decide)

/-- C7: an employee whose hire date or contract type is absent gets the
all-zero snapshot; the function is total, so the degradation is not an
error. -/
theorem missing_profile_zero_snapshot (u : User) (ps : List Permit) (now : Int)
    (h : u.hire_date = none ∨ u.contract_type = none) :
    calculate_days_available u ps now = zeroSnapshot :=
  calc_missing_profile u ps now h

/-- C7 witness: an admin account without hire date gets the all-zero
snapshot. -/
theorem missing_profile_zero_snapshot_witness :
    calculate_days_available userAdmin [] 50 = zeroSnapshot :=
  missing_profile_zero_snapshot userAdmin [] 50 (Or.inl rfl)

/-- C8: the claim says a settled permit is never mutated again, but the
review route has no guard on the current status: a permit record created
pending and already settled as approved is happily rewritten to rejected by
a second review (the route updates unconditionally, `server.py` lines
351-359). -/
theorem review_permit_mutates_settled_permit :
    (create_permit_record "t1" "Teacher One" pcExample 90 "p1").status =
      PermitStatus.pending ∧
    approvedPermit.status = PermitStatus.approved ∧
    (review_permit approvedPermit rejectReview reviewerB 220).status =
      PermitStatus.rejected ∧
    review_permit approvedPermit rejectReview reviewerB 220 ≠ approvedPermit := by
  refine ⟨rfl, rfl, rfl, ?_⟩
  decide

/-- C9 counterexample: the claim says the snapshot is a pure function of its
two arguments with no hidden state, but `calculate_days_available` reads the
wall clock (`server.py` line 150): the same employee and permit list yield
different snapshots one day apart (just before and after the six-year
accrual threshold). -/
theorem calculate_days_available_depends_on_clock :
    calculate_days_available userFT [] 2191 ≠ calculate_days_available userFT [] 2192 := by
  unfold calculate_days_available userFT
  simp [vacation_additional_calc, years_of_service, pyInt, vacation_used,
    economic_used, approved_permits]
  norm_num

/-- C9 (amended): with the clock made an explicit third input, the
computation is a deterministic pure function: at a fixed evaluation day the
result depends on the permit list only through the approved vacation and
economic totals (and hence identical inputs yield identical outputs), and
every validation verdict is preserved likewise. -/
theorem calculate_days_available_deterministic (u : User)
    (ps ps' : List Permit) (now : Int)
    (hv : vacation_used ps = vacation_used ps')
    (he : economic_used ps = economic_used ps') :
    calculate_days_available u ps now = calculate_days_available u ps' now ∧
    (∀ pt d, validate_request u ps pt d now = validate_request u ps' pt d now) := by
  have hcalc := calc_used_congr u ps ps' now hv he
  refine ⟨hcalc, fun pt d => ?_⟩
  unfold validate_request
  rw [hcalc]

/-- C9 witness: a pending permit does not change the used totals, so the
snapshot and a concrete verdict agree with the empty history. -/
theorem calculate_days_available_deterministic_witness :
    calculate_days_available userFT [permitVac 4 PermitStatus.pending] 100 =
      calculate_days_available userFT [] 100 ∧
    validate_request userFT [permitVac 4 PermitStatus.pending]
      PermitType.economic_62 3 100 =
      validate_request userFT [] PermitType.economic_62 3 100 := by
  have h := calculate_days_available_deterministic userFT
    [permitVac 4 PermitStatus.pending] [] 100 (by decide) (by decide)
  exact ⟨h.1, h.2 PermitType.economic_62 3⟩

/-- C10: a strictly negative approved vacation total `u` makes period 1
report `10 - u`, strictly above its 10-day cap, leaves period 2 and the
additional bucket at their caps, and inflates the vacation total to
`20 + additional - u`. -/
theorem negative_days_inflate_balance (u : User) (ps : List Permit)
    (now hire : Int) (ct : ContractType)
    (hh : u.hire_date = some hire) (hc : u.contract_type = some ct)
    (hneg : vacation_used ps < 0) :
    (calculate_days_available u ps now).vacation_period_1 = 10 - vacation_used ps ∧
    10 < (calculate_days_available u ps now).vacation_period_1 ∧
    (calculate_days_available u ps now).vacation_period_2 = 10 ∧
    (calculate_days_available u ps now).vacation_additional =
      vacation_additional_calc ct (years_of_service hire now) ∧
    (calculate_days_available u ps now).total_vacation =
      20 + vacation_additional_calc ct (years_of_service hire now) -
        vacation_used ps := by
  rw [calc_fields u ps now hire ct hh hc]
  have hA := vacation_additional_calc_nonneg ct (years_of_service hire now)
  refine ⟨?_, ?_, ?_, ?_, ?_⟩ <;>
    · simp only [max_def, min_def]
      split_ifs <;> omega

/-- C10 witness: an approved vacation permit of -5 days yields
period 1 = 15 (above the cap) and a vacation total of 25. -/
theorem negative_days_inflate_balance_witness :
    (calculate_days_available userFT [permitVac (-5) PermitStatus.approved] 100).vacation_period_1 = 15 ∧
    10 < (calculate_days_available userFT [permitVac (-5) PermitStatus.approved] 100).vacation_period_1 ∧
    (calculate_days_available userFT [permitVac (-5) PermitStatus.approved] 100).vacation_period_2 = 10 ∧
    (calculate_days_available userFT [permitVac (-5) PermitStatus.approved] 100).vacation_additional = 0 ∧
    (calculate_days_available userFT [permitVac (-5) PermitStatus.approved] 100).total_vacation = 25 := by
  have h := negative_days_inflate_balance userFT [permitVac (-5) PermitStatus.approved]
    100 0 ContractType.full_time rfl rfl (by decide)
  have hv : vacation_used [permitVac (-5) PermitStatus.approved] = -5 := by decide
  have hA : vacation_additional_calc ContractType.full_time (years_of_service 0 100) = 0 := by
    simp [vacation_additional_calc, years_of_service]
    norm_num
  obtain ⟨h1, h2, h3, h4, h5⟩ := h
  rw [hv] at h1 h5
  rw [hA] at h4 h5
  refine ⟨by rw [h1]; norm_num, h2, h3, h4, by rw [h5]; norm_num⟩

end Permisos
